import Mathlib

/-!
Verification of the conversation-aware retrieval orchestrator described in
the repository specification. The backend implementation modules
(session_manager, config, search_tools, ai_generator, rag_system, app) are
not present under src, only their tests are; the definitions below are
therefore modelled from the specification text, as marked on each one, and
checked against the behaviour the tests under src/backend/tests assert.
-/

/-- Modelled from the spec: a Turn is one role-tagged message within a
session, with role in {user, assistant} and textual content
(src/backend/models and session_manager are missing from src). -/
structure Turn where
  role : String
  content : String
deriving DecidableEq

/-- Modelled from the spec: the Session Store holds bounded per-session
conversation history, keyed by an opaque session id, together with the
max_history configuration (pairs of turns retained) and a counter used to
generate fresh identifiers (backend/session_manager.py is missing from
src). The sessions mapping is embedded as an association list. -/
structure SessionManager where
  max_history : Nat
  sessions : List (String × List Turn)
  session_counter : Nat

/-- Lookup in the association list embedding of the sessions dictionary:
returns the value at the first matching key, none when absent. -/
def listGet : List (String × List Turn) → String → Option (List Turn)
  | [], _ => none
  | p :: rest, k => if p.1 == k then some p.2 else listGet rest k

/-- Update in the association list embedding of the sessions dictionary:
replaces the value at the first matching key, appends a fresh binding when
the key is absent. -/
def listSet : List (String × List Turn) → String → List Turn → List (String × List Turn)
  | [], k, v => [(k, v)]
  | p :: rest, k, v => if p.1 == k then (k, v) :: rest else p :: listSet rest k v

/-- Decimal digit rendered as a character, used to build session ids. -/
def digitToChar (d : Nat) : Char :=
  if d = 0 then '0' else if d = 1 then '1' else if d = 2 then '2'
  else if d = 3 then '3' else if d = 4 then '4' else if d = 5 then '5'
  else if d = 6 then '6' else if d = 7 then '7' else if d = 8 then '8' else '9'

/-- Decimal rendering of a natural number as a string, via its base 10
digits (most significant first). -/
def natToIdNum (n : Nat) : String :=
  String.mk ((Nat.digits 10 n).reverse.map digitToChar)

/-- Modelled from the spec: create_session generates a fresh identifier
guaranteed unique among sessions produced by this generator, and registers
an empty turn sequence under it (backend/session_manager.py is missing from
src). The generator is embedded as a counter; the id is the counter value
rendered in decimal after the prefix shared by all generated ids. -/
def SessionManager.create_session (m : SessionManager) : String × SessionManager :=
  let sid := "session_" ++ natToIdNum (m.session_counter + 1)
  (sid, { m with session_counter := m.session_counter + 1,
                 sessions := listSet m.sessions sid [] })

/-- Modelled from the spec: add_message implicitly creates an unknown
session id (upsert, never failing), appends a Turn, then trims the sequence
to the most recent 2 times max_history entries, dropping oldest first
(backend/session_manager.py is missing from src). -/
def SessionManager.add_message (m : SessionManager) (session_id role content : String) :
    SessionManager :=
  let hist := (listGet m.sessions session_id).getD []
  let appended := hist ++ [Turn.mk role content]
  let trimmed := appended.drop (appended.length - 2 * m.max_history)
  { m with sessions := listSet m.sessions session_id trimmed }

/-- Modelled from the spec: get_session_history returns the empty sequence
for an unknown id without mutating state, and the full retained window
otherwise (backend/session_manager.py is missing from src). The returned
pair carries the store after the read, making the absence of mutation a
statable property. -/
def SessionManager.get_session_history (m : SessionManager) (session_id : String) :
    List Turn × SessionManager :=
  ((listGet m.sessions session_id).getD [], m)

/-- A sequence of add_message calls, each call given as
(session_id, role, content), applied in order. -/
def applyCalls (m : SessionManager) (calls : List (String × String × String)) : SessionManager :=
  calls.foldl (fun acc c => acc.add_message c.1 c.2.1 c.2.2) m

/-- The size invariant of the Session Store: every retained history has
length at most 2 times max_history. -/
def SessionManager.Inv (m : SessionManager) : Prop :=
  ∀ p ∈ m.sessions, p.2.length ≤ 2 * m.max_history

/-- Modelled from the spec and the configuration test: the configuration
record with the fields the tests assert (backend/config.py is missing from
src). -/
structure Config where
  ANTHROPIC_MODEL : String
  EMBEDDING_MODEL : String
  CHUNK_SIZE : Nat
  CHUNK_OVERLAP : Nat
  MAX_RESULTS : Nat
  MAX_HISTORY : Nat
  CHROMA_PATH : String

/-- Modelled from the spec and the configuration test: the default
configuration values asserted by test_config_values (backend/config.py is
missing from src). -/
def defaultConfig : Config :=
  { ANTHROPIC_MODEL := "claude-sonnet-4-20250514"
    EMBEDDING_MODEL := "all-MiniLM-L6-v2"
    CHUNK_SIZE := 800
    CHUNK_OVERLAP := 100
    MAX_RESULTS := 5
    MAX_HISTORY := 2
    CHROMA_PATH := "./chroma_db" }

/-- Modelled from the spec: the citation metadata carried by each passage
returned from the Vector Store, with at least a course title and optional
lesson fields (backend/vector_store.py is missing from src). -/
structure ChunkMeta where
  course_title : String
  lesson_title : Option String
  lesson_number : Option Nat
  lesson_link : Option String
deriving DecidableEq

/-- Modelled from the spec: a Source Citation, the course and lesson
provenance attached to one retrieved passage, ephemeral to one response. -/
structure Citation where
  course_title : String
  lesson_title : Option String
  lesson_link : Option String
deriving DecidableEq

/-- One invocation of the Vector Store collaborator, recorded so that the
number of calls and their arguments are statable properties. -/
structure VCall where
  query : String
  k : Nat
  course_filter : Option String
  lesson_filter : Option String
deriving DecidableEq

/-- The Vector Store collaborator contract from the spec: a search takes
the query text, the result bound k and the optional course and lesson
filters, and returns ranked (passage_text, metadata) pairs or raises on
infrastructure failure (embedded as an Except value). -/
abbrev VectorStore := String → Nat → Option String → Option String →
  Except String (List (String × ChunkMeta))

/-- Modelled from the spec: the explicit marker text the Retrieval Tool
yields when zero results are returned, instead of an empty string
(backend/search_tools.py is missing from src). -/
def noResultsMarker : String := "No relevant content found."

/-- Modelled from the spec: each passage is prefixed with a human readable
locator derived from its metadata, bracketed course title with the lesson
number when lesson metadata is present (backend/search_tools.py is missing
from src). -/
def formatResult (r : String × ChunkMeta) : String :=
  match r.2.lesson_number with
  | some n => "[" ++ r.2.course_title ++ " - Lesson " ++ natToIdNum n ++ "]" ++ "\n" ++ r.1
  | none => "[" ++ r.2.course_title ++ "]" ++ "\n" ++ r.1

/-- The Source Citation recorded for one returned passage. -/
def toCitation (r : String × ChunkMeta) : Citation :=
  ⟨r.2.course_title, r.2.lesson_title, r.2.lesson_link⟩

/-- Modelled from the spec: the Retrieval Tool adapter holding its Vector
Store collaborator (backend/search_tools.py is missing from src). -/
structure CourseSearchTool where
  vector_store : VectorStore

/-- The outcome of one Retrieval Tool execution: the formatted text block
or the propagated failure, the Source Citations collected for this
invocation, and the Vector Store calls it performed. -/
structure ToolOutcome where
  result : Except String String
  citations : List Citation
  vcalls : List VCall

/-- Modelled from the spec: the Retrieval Tool delegates the lookup to the
Vector Store, formats each passage behind its locator, concatenates the
passages with a visible separator, yields the explicit marker on zero
results, records one Source Citation per returned passage, and propagates
a Vector Store failure unchanged (backend/search_tools.py is missing from
src). -/
def CourseSearchTool.execute (t : CourseSearchTool)
    (query : String) (course_filter lesson_filter : Option String) (k : Nat) : ToolOutcome :=
  let call : VCall := ⟨query, k, course_filter, lesson_filter⟩
  match t.vector_store query k course_filter lesson_filter with
  | .error e => ⟨.error e, [], [call]⟩
  | .ok [] => ⟨.ok noResultsMarker, [], [call]⟩
  | .ok results =>
      ⟨.ok (String.intercalate "\n\n" (results.map formatResult)),
       results.map toCitation, [call]⟩

/-- Modelled from the spec: the search entry point of the Retrieval Tool
called with only the query uses no filters and the configured MAX_RESULTS
as the result bound (backend/search_tools.py is missing from src). -/
def CourseSearchTool.search (t : CourseSearchTool) (query : String) : ToolOutcome :=
  t.execute query none none defaultConfig.MAX_RESULTS

/-- A tool call requested by the language model: the search query and the
optional course and lesson filters. -/
structure ToolCallReq where
  query : String
  course_filter : Option String
  lesson_filter : Option String
deriving DecidableEq

/-- Modelled from the spec: a Tool Invocation Record, transient and scoped
to one Answer Engine turn, used to build the follow-up model request. -/
structure ToolRecord where
  tool_name : String
  arguments : ToolCallReq
  result_text : String
deriving DecidableEq

/-- The request the Answer Engine sends to the language model on each
round: the trimmed history, the current user turn, and the tool results
accumulated so far in this turn. -/
structure ModelRequest where
  history : List Turn
  user_query : String
  tool_records : List ToolRecord

/-- The language model reply variant from the spec: either final text or a
list of tool call requests. -/
inductive ModelResponse where
  | finalText (text : String)
  | toolCalls (reqs : List ToolCallReq)

/-- The Language Model Service collaborator contract from the spec:
synchronous request and response. -/
abbrev ModelService := ModelRequest → ModelResponse

/-- The answer produced by one Answer Engine turn: the final text plus the
Source Citations accumulated during the tool executions of this turn. -/
structure EngineResult where
  answer : String
  sources : List Citation
deriving DecidableEq

/-- Modelled from the spec: the implementation chosen maximum round count
that guards the tool loop of the Answer Engine (backend/ai_generator.py is
missing from src). -/
def MAX_ROUNDS : Nat := 2

/-- Executes the tool calls of one ToolExecution step against the
Retrieval Tool, collecting the invocation records and citations, and
propagating a tool failure unchanged. -/
def executeToolCalls (t : CourseSearchTool) :
    List ToolCallReq → Except String (List ToolRecord × List Citation)
  | [] => .ok ([], [])
  | r :: rest =>
      match t.execute r.query r.course_filter r.lesson_filter defaultConfig.MAX_RESULTS with
      | ⟨.error e, _, _⟩ => .error e
      | ⟨.ok text, cits, _⟩ =>
          match executeToolCalls t rest with
          | .error e => .error e
          | .ok (recs, more) =>
              .ok (⟨"search_course_content", r, text⟩ :: recs, cits ++ more)

/-- Modelled from the spec: the Answer Engine state machine, a finite loop
over the model reply variant, executing requested tool calls and feeding
the enlarged context back until the model returns final text, with the
bounded round count exhausting into a fatal error
(backend/ai_generator.py is missing from src). -/
def engineLoop (ai : ModelService) (t : CourseSearchTool)
    (history : List Turn) (user_query : String) :
    Nat → List ToolRecord → List Citation → Except String EngineResult
  | 0, _, _ => .error "ToolLoopExceeded"
  | fuel + 1, records, cits =>
      match ai ⟨history, user_query, records⟩ with
      | .finalText text => .ok ⟨text, cits⟩
      | .toolCalls reqs =>
          match executeToolCalls t reqs with
          | .error e => .error e
          | .ok (recs, more) =>
              engineLoop ai t history user_query fuel (records ++ recs) (cits ++ more)

/-- Modelled from the spec: generate_response drives the tool use loop
from the Start state with an empty exchange (backend/ai_generator.py is
missing from src). -/
def generate_response (ai : ModelService) (t : CourseSearchTool)
    (history : List Turn) (user_query : String) : Except String EngineResult :=
  engineLoop ai t history user_query MAX_ROUNDS [] []

/-- Modelled from the spec: the Orchestrator query obtains or creates a
session, fetches the bounded history, delegates to the Answer Engine, and
on success commits the user and assistant turns; if the Answer Engine
raises it re-raises and commits nothing (backend/rag_system.py is missing
from src). -/
def RAGSystem.query (ai : ModelService) (t : CourseSearchTool) (m : SessionManager)
    (query_text : String) (session_id : Option String) :
    Except String (String × List Citation × String) × SessionManager :=
  let idm := match session_id with
    | some s => (s, m)
    | none => m.create_session
  let sid := idm.1
  let m1 := idm.2
  let hist := (m1.get_session_history sid).1
  match generate_response ai t hist query_text with
  | .error e => (.error e, m1)
  | .ok res =>
      let m2 := (m1.add_message sid "user" query_text).add_message sid "assistant" res.answer
      (.ok (res.answer, res.sources, sid), m2)

/-- The analytics record exposed by the Orchestrator. -/
structure CourseAnalytics where
  total_courses : Nat
  course_titles : List String

/-- Modelled from the spec: the course count read of the index
collaborator, the number of indexed courses (backend/vector_store.py is
missing from src). The indexed catalog is embedded as the list of indexed
course titles. -/
def get_course_count (catalog : List String) : Nat := catalog.length

/-- Modelled from the spec: the course title read of the index
collaborator (backend/vector_store.py is missing from src). -/
def get_existing_course_titles (catalog : List String) : List String := catalog

/-- Modelled from the spec: get_course_analytics is a read-only pass
through combining the two index reads (backend/rag_system.py is missing
from src). -/
def get_course_analytics (catalog : List String) : CourseAnalytics :=
  ⟨get_course_count catalog, get_existing_course_titles catalog⟩

/-- The response schema of the courses endpoint. -/
structure CourseStats where
  total_courses : Nat
  course_titles : List String

/-- Modelled from the spec and the test app: the courses endpoint passes
the analytics record through into the response schema (backend/app.py is
missing from src). -/
def get_course_stats (catalog : List String) : CourseStats :=
  let analytics := get_course_analytics catalog
  ⟨analytics.total_courses, analytics.course_titles⟩

/-- The request schema of the query endpoint. -/
structure QueryRequest where
  query : String
  session_id : Option String

/-- The response schema of the query endpoint. -/
structure QueryResponse where
  answer : String
  sources : List String
  session_id : String
deriving DecidableEq

/-- A Source Citation rendered as the source string surfaced to the end
user. -/
def citationToSource (c : Citation) : String :=
  match c.lesson_title with
  | some l => c.course_title ++ " - " ++ l
  | none => c.course_title

/-- Modelled from the spec and the test app: the query endpoint creates a
session when the request carries no usable session id, delegates to the
Orchestrator, and returns the answer, the rendered sources and the session
id (backend/app.py is missing from src). -/
def query_documents (ai : ModelService) (t : CourseSearchTool) (m : SessionManager)
    (req : QueryRequest) : Except String QueryResponse × SessionManager :=
  let idm := match req.session_id with
    | some s => if s = "" then m.create_session else (s, m)
    | none => m.create_session
  match RAGSystem.query ai t idm.2 req.query (some idm.1) with
  | (.error e, m2) => (.error e, m2)
  | (.ok (ans, cits, sid), m2) =>
      (.ok ⟨ans, cits.map citationToSource, sid⟩, m2)

/-- A Vector Store that finds nothing for every search. -/
def emptyVS : VectorStore := fun _ _ _ _ => .ok []

/-- A Vector Store whose search raises on every call, as in the error
handling integration test. -/
def errVS : VectorStore := fun _ _ _ _ => .error "Vector store error"

/-- A Language Model Service that requests one search tool call on every
round, used to drive the engine into a tool execution. -/
def toolCallAI (q : String) : ModelService := fun _ => .toolCalls [⟨q, none, none⟩]

/-- A Language Model Service that requests one search on the first round
and finalizes on any later round, the canonical terminating tool use
exchange. -/
def zeroHitScript (q ans : String) : ModelService := fun req =>
  if req.tool_records.isEmpty then .toolCalls [⟨q, none, none⟩] else .finalText ans

/-- A Language Model Service that immediately returns final text. -/
def finalAI (ans : String) : ModelService := fun _ => .finalText ans

/-- Lookup after an update at the same key returns the updated value. -/
theorem listGet_listSet_self (l : List (String × List Turn)) (k : String) (v : List Turn) :
    listGet (listSet l k v) k = some v := by
  induction l with
  | nil => simp [listSet, listGet]
  | cons p rest ih =>
      cases h : (p.1 == k) with
      | true => simp [listSet, h, listGet]
      | false => simp [listSet, h, listGet, ih]

/-- Every binding of an updated association list is an old binding or the
new one. -/
theorem mem_listSet {l : List (String × List Turn)} {k : String} {v : List Turn}
    {p : String × List Turn} (hp : p ∈ listSet l k v) : p ∈ l ∨ p = (k, v) := by
  induction l with
  | nil => simp [listSet] at hp; simp [hp]
  | cons q rest ih =>
      cases h : (q.1 == k) with
      | true =>
          rw [listSet, if_pos h] at hp
          rcases List.mem_cons.mp hp with h1 | h1
          · exact Or.inr h1
          · exact Or.inl (List.mem_cons_of_mem q h1)
      | false =>
          rw [listSet, if_neg (by simp [h])] at hp
          rcases List.mem_cons.mp hp with h1 | h1
          · exact Or.inl (h1 ▸ List.mem_cons_self q rest)
          · rcases ih h1 with h2 | h2
            · exact Or.inl (List.mem_cons_of_mem q h2)
            · exact Or.inr h2

/-- A successful lookup returns the value of some stored binding. -/
theorem listGet_eq_some_mem {l : List (String × List Turn)} {k : String} {v : List Turn}
    (h : listGet l k = some v) : ∃ p ∈ l, p.2 = v := by
  induction l with
  | nil => simp [listGet] at h
  | cons q rest ih =>
      cases hq : (q.1 == k) with
      | true =>
          rw [listGet, if_pos hq] at h
          exact ⟨q, List.mem_cons_self q rest, by injection h⟩
      | false =>
          rw [listGet, if_neg (by simp [hq])] at h
          rcases ih h with ⟨p, hp, hpv⟩
          exact ⟨p, List.mem_cons_of_mem q hp, hpv⟩

/-- Under the size invariant, every history read is bounded. -/
theorem inv_history_bound {m : SessionManager} (hInv : m.Inv) (sid : String) :
    ((m.get_session_history sid).1).length ≤ 2 * m.max_history := by
  unfold SessionManager.get_session_history
  cases h : listGet m.sessions sid with
  | none => simp
  | some hist =>
      rcases listGet_eq_some_mem h with ⟨p, hp, hpv⟩
      simpa [hpv] using hInv p hp

/-- An add_message call keeps the max_history configuration. -/
theorem add_message_max_history (m : SessionManager) (sid role content : String) :
    (m.add_message sid role content).max_history = m.max_history := rfl

/-- An add_message call preserves the size invariant: the appended history
is trimmed back to at most 2 times max_history entries. -/
theorem add_message_inv {m : SessionManager} (hInv : m.Inv) (sid role content : String) :
    (m.add_message sid role content).Inv := by
  intro p hp
  rw [add_message_max_history]
  unfold SessionManager.add_message at hp
  simp only at hp
  rcases mem_listSet hp with h1 | h1
  · exact hInv p h1
  · rw [h1]
    simp only [List.length_drop]
    omega

/-- A sequence of add_message calls preserves the size invariant. -/
theorem applyCalls_inv {m : SessionManager} (hInv : m.Inv)
    (calls : List (String × String × String)) : (applyCalls m calls).Inv := by
  induction calls generalizing m with
  | nil => exact hInv
  | cons c rest ih => exact ih (add_message_inv hInv c.1 c.2.1 c.2.2)

/-- A sequence of add_message calls keeps the max_history configuration. -/
theorem applyCalls_max_history (m : SessionManager) (calls : List (String × String × String)) :
    (applyCalls m calls).max_history = m.max_history := by
  induction calls generalizing m with
  | nil => rfl
  | cons c rest ih => exact ih (m.add_message c.1 c.2.1 c.2.2)

/-- Claim C1: for every session and every sequence of add_message calls
with any roles and contents, starting from any store satisfying the size
invariant, the retained history of that session has length at most 2 times
max_history; since the sequence is arbitrary, the bound holds after each
call. -/
theorem session_history_length_bounded (m : SessionManager) (hInv : m.Inv)
    (calls : List (String × String × String)) (sid : String) :
    (((applyCalls m calls).get_session_history sid).1).length ≤ 2 * m.max_history := by
  have h1 := inv_history_bound (applyCalls_inv hInv calls) sid
  rwa [applyCalls_max_history] at h1

/-- Witness for claim C1 at the concrete scenario of the history limit
test: max_history 2, five alternating messages, bound 4. -/
theorem session_history_length_bounded_witness :
    (SessionManager.mk 2 [] 0).Inv ∧
    (((applyCalls (SessionManager.mk 2 [] 0)
        [("s", "user", "Message 1"), ("s", "assistant", "Response 1"),
         ("s", "user", "Message 2"), ("s", "assistant", "Response 2"),
         ("s", "user", "Message 3")]).get_session_history "s").1).length ≤ 2 * 2 :=
  ⟨fun p hp => absurd hp (List.not_mem_nil p),
   session_history_length_bounded (SessionManager.mk 2 [] 0)
     (fun p hp => absurd hp (List.not_mem_nil p)) _ "s"⟩

/-- Claim C2: if the Answer Engine raises during the Orchestrator query on
a provided session id, the query re-raises the same failure and the whole
Session Store, hence the history of that session, is exactly what it was
before the call: neither the user turn nor the assistant turn is
committed. -/
theorem query_error_no_commit (ai : ModelService) (t : CourseSearchTool) (m : SessionManager)
    (sid query_text e : String)
    (h : generate_response ai t ((m.get_session_history sid).1) query_text = .error e) :
    RAGSystem.query ai t m query_text (some sid) = (.error e, m) := by
  unfold RAGSystem.query
  simp only [h]

/-- Witness for claim C2: a Vector Store whose search raises, a model that
requests a search, and a store with max_history 2; the query propagates
the failure and leaves the store untouched. -/
theorem query_error_no_commit_witness :
    generate_response (toolCallAI "test query") ⟨errVS⟩
        (((SessionManager.mk 2 [] 0).get_session_history "test-session").1) "test query"
      = .error "Vector store error"
    ∧ RAGSystem.query (toolCallAI "test query") ⟨errVS⟩ (SessionManager.mk 2 [] 0)
        "test query" (some "test-session")
      = (.error "Vector store error", SessionManager.mk 2 [] 0) :=
  ⟨rfl, query_error_no_commit (toolCallAI "test query") ⟨errVS⟩ (SessionManager.mk 2 [] 0)
    "test-session" "test query" "Vector store error" rfl⟩

/-- Counterexample to claim C3 as stated: the spec admits max_history 0,
where memory is disabled; there the turn appended to an unknown id is
trimmed away at once and the immediately following read returns the empty
history, not a non-empty one containing the just added message. -/
theorem add_message_unknown_empty_history_cex :
    ¬ ((((SessionManager.mk 0 [] 0).add_message "invalid-session" "user" "test"
          ).get_session_history "invalid-session").1 ≠ []
       ∧ Turn.mk "user" "test" ∈
          (((SessionManager.mk 0 [] 0).add_message "invalid-session" "user" "test"
            ).get_session_history "invalid-session").1) := by
  decide

/-- Claim C3 (amended): provided max_history is at least 1, add_message on
an id unknown to the store never fails, implicitly creates the session and
appends the turn, so the immediately following get_session_history returns
a non-empty history containing the just added message. -/
theorem add_message_lazy_creation (m : SessionManager) (sid role content : String)
    (hmh : 1 ≤ m.max_history) (hunk : listGet m.sessions sid = none) :
    (((m.add_message sid role content).get_session_history sid).1 ≠ []
      ∧ Turn.mk role content ∈ ((m.add_message sid role content).get_session_history sid).1) := by
  have hv : ((m.add_message sid role content).get_session_history sid).1
      = [Turn.mk role content] := by
    unfold SessionManager.add_message SessionManager.get_session_history
    simp only [hunk, Option.getD_none, List.nil_append, listGet_listSet_self, Option.getD_some,
      List.length_singleton]
    have hz : 1 - 2 * m.max_history = 0 := by omega
    rw [hz, List.drop_zero]
  rw [hv]
  exact ⟨by simp, by simp⟩

/-- Witness for claim C3 at the inputs of the invalid session test:
max_history 2, an unknown id, one user message. -/
theorem add_message_lazy_creation_witness :
    1 ≤ (SessionManager.mk 2 [] 0).max_history
    ∧ listGet (SessionManager.mk 2 [] 0).sessions "invalid-session" = none
    ∧ ((((SessionManager.mk 2 [] 0).add_message "invalid-session" "user" "test"
          ).get_session_history "invalid-session").1 ≠ []
       ∧ Turn.mk "user" "test" ∈
          (((SessionManager.mk 2 [] 0).add_message "invalid-session" "user" "test"
            ).get_session_history "invalid-session").1) :=
  ⟨by decide, rfl,
   add_message_lazy_creation (SessionManager.mk 2 [] 0) "invalid-session" "user" "test"
     (by decide) rfl⟩

/-- Claim C4: with max_history 2, after adding the five alternating
messages of the history limit test to one session, the retained history
has length at most 4, ends with Message 3 as the most recent entry, and no
longer contains Message 1. -/
theorem history_limit_scenario :
    (((applyCalls (SessionManager.mk 2 [] 0)
        [("s1", "user", "Message 1"), ("s1", "assistant", "Response 1"),
         ("s1", "user", "Message 2"), ("s1", "assistant", "Response 2"),
         ("s1", "user", "Message 3")]).get_session_history "s1").1).length ≤ 4
    ∧ (((applyCalls (SessionManager.mk 2 [] 0)
        [("s1", "user", "Message 1"), ("s1", "assistant", "Response 1"),
         ("s1", "user", "Message 2"), ("s1", "assistant", "Response 2"),
         ("s1", "user", "Message 3")]).get_session_history "s1").1).getLast?
      = some (Turn.mk "user" "Message 3")
    ∧ "Message 1" ∉ (((applyCalls (SessionManager.mk 2 [] 0)
        [("s1", "user", "Message 1"), ("s1", "assistant", "Response 1"),
         ("s1", "user", "Message 2"), ("s1", "assistant", "Response 2"),
         ("s1", "user", "Message 3")]).get_session_history "s1").1).map Turn.content := by
  decide

/-- Claim C5: get_session_history on an id never created and never
messaged returns the empty history and leaves the store unchanged. -/
theorem get_session_history_unknown_id (m : SessionManager) (sid : String)
    (h : listGet m.sessions sid = none) :
    m.get_session_history sid = ([], m) := by
  unfold SessionManager.get_session_history
  rw [h]
  rfl

/-- Witness for claim C5 at the inputs of the invalid session test. -/
theorem get_session_history_unknown_id_witness :
    listGet (SessionManager.mk 2 [] 0).sessions "invalid-session" = none
    ∧ (SessionManager.mk 2 [] 0).get_session_history "invalid-session"
      = ([], SessionManager.mk 2 [] 0) :=
  ⟨rfl, get_session_history_unknown_id (SessionManager.mk 2 [] 0) "invalid-session" rfl⟩

/-- The digit characters are distinct, so the digit rendering is injective
on decimal digits. -/
theorem digitToChar_inj {a b : Nat} (ha : a < 10) (hb : b < 10)
    (h : digitToChar a = digitToChar b) : a = b := by
  interval_cases a <;> interval_cases b <;> revert h <;> decide

/-- Mapping the digit rendering over lists of decimal digits is
injective. -/
theorem map_digitToChar_inj : ∀ {xs ys : List Nat},
    (∀ d ∈ xs, d < 10) → (∀ d ∈ ys, d < 10) →
    xs.map digitToChar = ys.map digitToChar → xs = ys
  | [], [], _, _, _ => rfl
  | [], _ :: _, _, _, h => by simp at h
  | _ :: _, [], _, _, h => by simp at h
  | x :: xs, y :: ys, hx, hy, h => by
      simp only [List.map_cons, List.cons.injEq] at h
      have h1 := digitToChar_inj (hx x (by simp)) (hy y (by simp)) h.1
      have h2 := map_digitToChar_inj (fun d hd => hx d (List.mem_cons_of_mem x hd))
        (fun d hd => hy d (List.mem_cons_of_mem y hd)) h.2
      rw [h1, h2]

/-- The decimal rendering of a natural number is injective, by the round
trip through the base 10 digits. -/
theorem natToIdNum_inj {a b : Nat} (h : natToIdNum a = natToIdNum b) : a = b := by
  have hd : (Nat.digits 10 a).reverse.map digitToChar
      = (Nat.digits 10 b).reverse.map digitToChar := congrArg String.data h
  have hr : (Nat.digits 10 a).reverse = (Nat.digits 10 b).reverse :=
    map_digitToChar_inj
      (fun d hdm => Nat.digits_lt_base (by omega) (List.mem_reverse.mp hdm))
      (fun d hdm => Nat.digits_lt_base (by omega) (List.mem_reverse.mp hdm)) hd
  have hdi : Nat.digits 10 a = Nat.digits 10 b := List.reverse_injective hr
  calc a = Nat.ofDigits 10 (Nat.digits 10 a) := (Nat.ofDigits_digits 10 a).symm
    _ = Nat.ofDigits 10 (Nat.digits 10 b) := by rw [hdi]
    _ = b := Nat.ofDigits_digits 10 b

/-- Appending to a fixed string on the left is injective. -/
theorem string_append_right_inj {a b : String} (p : String) (h : p ++ a = p ++ b) : a = b := by
  apply String.ext
  have hd := congrArg String.data h
  rw [String.data_append, String.data_append] at hd
  exact List.append_cancel_left hd

/-- Every generated session id is non-empty. -/
theorem session_string_ne_empty (s : String) : "session_" ++ s ≠ "" := by
  intro h
  have h1 : ("session_" ++ s).length = ("" : String).length := congrArg String.length h
  rw [String.length_append] at h1
  have h2 : ("session_" : String).length = 8 := rfl
  have h3 : ("" : String).length = 0 := rfl
  rw [h2, h3] at h1
  omega

/-- Claim C6: two consecutive create_session calls return distinct
identifiers, and each identifier is a non-empty string. -/
theorem create_session_unique_ids (m : SessionManager) :
    (m.create_session).1 ≠ ((m.create_session).2.create_session).1
    ∧ (m.create_session).1 ≠ "" ∧ ((m.create_session).2.create_session).1 ≠ "" := by
  refine ⟨?_, session_string_ne_empty _, session_string_ne_empty _⟩
  intro h
  have h1 : natToIdNum (m.session_counter + 1) = natToIdNum (m.session_counter + 1 + 1) :=
    string_append_right_inj "session_" h
  have h2 := natToIdNum_inj h1
  omega

/-- Every execution of the Retrieval Tool performs exactly one Vector
Store call, with the query, bound and filters it was given. -/
theorem execute_vcalls (t : CourseSearchTool) (q : String) (cf lf : Option String) (k : Nat) :
    (t.execute q cf lf k).vcalls = [VCall.mk q k cf lf] := by
  unfold CourseSearchTool.execute
  cases t.vector_store q k cf lf with
  | error e => rfl
  | ok results =>
      cases results with
      | nil => rfl
      | cons a l => rfl

/-- Claim C7: the search entry point of the Retrieval Tool, called with
only the query, invokes the Vector Store search exactly once, with that
query, no filters, and k equal to the configured MAX_RESULTS, whose
default value is 5. -/
theorem search_tool_calls_vstore_once (vs : VectorStore) (q : String) :
    (CourseSearchTool.search ⟨vs⟩ q).vcalls
      = [VCall.mk q defaultConfig.MAX_RESULTS none none]
    ∧ defaultConfig.MAX_RESULTS = 5 :=
  ⟨execute_vcalls ⟨vs⟩ q none none defaultConfig.MAX_RESULTS, rfl⟩

/-- When every Vector Store search of the tool returns zero results,
executing one requested search yields the marker text as the recorded tool
result and no citations. -/
theorem executeToolCalls_zero_results (t : CourseSearchTool)
    (h : ∀ q k cf lf, t.vector_store q k cf lf = .ok []) (q : String) :
    executeToolCalls t [ToolCallReq.mk q none none]
      = .ok ([ToolRecord.mk "search_course_content" (ToolCallReq.mk q none none)
               noResultsMarker], []) := by
  unfold executeToolCalls CourseSearchTool.execute
  rw [h]
  rfl

/-- When every Vector Store search of the tool returns zero results, the
Answer Engine driven by a model that searches once and then finalizes
reaches Done with the final text and no citations. -/
theorem engine_zero_results_done (t : CourseSearchTool)
    (h : ∀ q k cf lf, t.vector_store q k cf lf = .ok []) (q ans : String) :
    generate_response (zeroHitScript q ans) t [] q = .ok ⟨ans, []⟩ := by
  have e1 := executeToolCalls_zero_results t h q
  have step1 : generate_response (zeroHitScript q ans) t [] q
      = (match executeToolCalls t [ToolCallReq.mk q none none] with
         | .error e => .error e
         | .ok (recs, more) =>
             engineLoop (zeroHitScript q ans) t [] q 1 ([] ++ recs) ([] ++ more)) := rfl
  rw [step1, e1]
  rfl

/-- Claim C8: on a Vector Store returning zero results the Retrieval Tool
yields the explicit marker text, the marker is not the empty string, and
the Answer Engine still reaches Done with the non-empty marker fed back as
the tool result, instead of looping or failing. -/
theorem zero_results_marker_and_done (t : CourseSearchTool)
    (h : ∀ q k cf lf, t.vector_store q k cf lf = .ok []) (q ans : String) :
    (t.execute q none none defaultConfig.MAX_RESULTS).result = .ok noResultsMarker
    ∧ noResultsMarker ≠ ""
    ∧ executeToolCalls t [ToolCallReq.mk q none none]
        = .ok ([ToolRecord.mk "search_course_content" (ToolCallReq.mk q none none)
                 noResultsMarker], [])
    ∧ generate_response (zeroHitScript q ans) t [] q = .ok ⟨ans, []⟩ := by
  refine ⟨?_, by decide, executeToolCalls_zero_results t h q,
    engine_zero_results_done t h q ans⟩
  unfold CourseSearchTool.execute
  rw [h]

/-- Witness for claim C8 with the Vector Store that finds nothing. -/
theorem zero_results_marker_and_done_witness :
    (∀ q k cf lf, (CourseSearchTool.mk emptyVS).vector_store q k cf lf = .ok [])
    ∧ ((CourseSearchTool.mk emptyVS).execute "test query" none none
          defaultConfig.MAX_RESULTS).result = .ok noResultsMarker
    ∧ noResultsMarker ≠ ""
    ∧ executeToolCalls (CourseSearchTool.mk emptyVS) [ToolCallReq.mk "test query" none none]
        = .ok ([ToolRecord.mk "search_course_content"
                 (ToolCallReq.mk "test query" none none) noResultsMarker], [])
    ∧ generate_response (zeroHitScript "test query" "No matches found.")
        (CourseSearchTool.mk emptyVS) [] "test query"
      = .ok ⟨"No matches found.", []⟩ :=
  ⟨fun _ _ _ _ => rfl,
   zero_results_marker_and_done (CourseSearchTool.mk emptyVS)
     (fun _ _ _ _ => rfl) "test query" "No matches found."⟩

/-- Claim C9: every analytics result is internally consistent, the course
count equals the number of entries in the course title list, and the
courses endpoint pass through preserves this. -/
theorem course_analytics_consistent (catalog : List String) :
    (get_course_analytics catalog).total_courses
      = (get_course_analytics catalog).course_titles.length
    ∧ (get_course_stats catalog).total_courses
      = (get_course_stats catalog).course_titles.length :=
  ⟨rfl, rfl⟩

/-- Claim C10: the query entry point imposes no non-emptiness precondition
on the query text: called with the empty string and no session id it
succeeds whenever the Answer Engine does, returning a well formed response
with an answer, a sources list, and a non-empty session id. -/
theorem empty_query_accepted (ai : ModelService) (t : CourseSearchTool) (m : SessionManager)
    (r : EngineResult) (h : generate_response ai t [] "" = .ok r) :
    (query_documents ai t m ⟨"", none⟩).1
      = .ok ⟨r.answer, r.sources.map citationToSource,
             "session_" ++ natToIdNum (m.session_counter + 1)⟩
    ∧ "session_" ++ natToIdNum (m.session_counter + 1) ≠ "" := by
  refine ⟨?_, session_string_ne_empty _⟩
  unfold query_documents RAGSystem.query SessionManager.create_session
    SessionManager.get_session_history
  simp only [listGet_listSet_self, Option.getD_some, h]

/-- Witness for claim C10: a model that immediately finalizes, the Vector
Store that finds nothing, and a fresh store with max_history 2. -/
theorem empty_query_accepted_witness :
    generate_response (finalAI "Test answer") (CourseSearchTool.mk emptyVS) [] ""
      = .ok ⟨"Test answer", []⟩
    ∧ ((query_documents (finalAI "Test answer") (CourseSearchTool.mk emptyVS)
          (SessionManager.mk 2 [] 0) ⟨"", none⟩).1
        = .ok ⟨"Test answer", (EngineResult.mk "Test answer" []).sources.map citationToSource,
               "session_" ++ natToIdNum ((SessionManager.mk 2 [] 0).session_counter + 1)⟩
       ∧ "session_" ++ natToIdNum ((SessionManager.mk 2 [] 0).session_counter + 1) ≠ "") :=
  ⟨rfl, empty_query_accepted (finalAI "Test answer") (CourseSearchTool.mk emptyVS)
    (SessionManager.mk 2 [] 0) (EngineResult.mk "Test answer" []) rfl⟩
